import Mathlib

/-!
Verification development for the YakuLingo native launcher
(`src/launcher/launcher.c`).

The launcher is a straight-line Windows program.  We embed each of its
functions as a pure Lean function; external effects (WinHTTP calls,
directory enumeration, file reads/writes, environment lookups, process
spawn) are made explicit parameters or explicit result fields:

* `IsAppRunning` becomes a function of the five WinHTTP stage outcomes
  (session open, connect, request open, send, receive).
* `FindPythonDir` becomes a function of the directory listing of
  `<baseDir>\.uv-python`; `FindFirstFileW`/`FindNextFileW` with a
  `cpython-*` pattern are modelled by filtering the listing with the
  (case-insensitive) glob, then scanning it in order.
* `FixPyvenvCfg` becomes a function of the read file contents
  (`none` when `_wfopen_s` for read fails) and of whether the open for
  write succeeds; the returned pair is the C return value together with
  the lines written (one per `fwprintf`, shown without the trailing
  newline each `fwprintf` appends).
* `SetupEnvironment` returns the list of `SetEnvironmentVariableW`
  calls performed, in order.
* `WinMain` becomes a function of a `World` of those external outcomes,
  returning the exit code and the observable effects.

Wide-character strings are `List Char`; buffers bounds that matter
(the 256-wide-character `version` buffer filled by `wcscpy_s`) are kept
explicit.
-/

set_option maxRecDepth 8192

/-- Outcome of each stage of the WinHTTP probe in `IsAppRunning`
(launcher.c lines 30-66): `WinHttpOpen`, `WinHttpConnect`,
`WinHttpOpenRequest`, `WinHttpSendRequest`, `WinHttpReceiveResponse`. -/
structure ProbeOutcomes where
  sessionOk : Bool
  connectOk : Bool
  openRequestOk : Bool
  sendOk : Bool
  receiveOk : Bool
deriving DecidableEq

/-- `IsAppRunning` (launcher.c lines 30-66): `result` starts `FALSE`,
each failed stage jumps to `cleanup`, and `result` is set to `TRUE`
only after `WinHttpSendRequest` and `WinHttpReceiveResponse` both
succeed.  There is no loop: a single attempt is made. -/
def IsAppRunning (o : ProbeOutcomes) : Bool :=
  if !o.sessionOk then false
  else if !o.connectOk then false
  else if !o.openRequestOk then false
  else if o.sendOk then
    if o.receiveOk then true else false
  else false

/-- One entry yielded by directory enumeration: its `cFileName` and
whether `dwFileAttributes` has `FILE_ATTRIBUTE_DIRECTORY`. -/
structure DirEntry where
  name : List Char
  isDirectory : Bool
deriving DecidableEq

/-- Condition of the loop body in `FindPythonDir` (launcher.c lines
80-88): the entry is a directory and `wcsncmp(cFileName, L"cpython-", 8)`
is `0`, i.e. the first 8 characters equal `cpython-` case-sensitively. -/
def qualifies (e : DirEntry) : Bool :=
  e.isDirectory && (e.name.take 8 == ("cpython-").data)

/-- The `FindFirstFileW` pattern `cpython-*` (launcher.c line 73):
Windows filename glob matching is case-insensitive, so an entry is
enumerated iff its first 8 characters equal `cpython-` up to ASCII
case. -/
def globCpython (name : List Char) : Bool :=
  (name.take 8).map Char.toLower == ("cpython-").data

/-- The `do`/`while (FindNextFileW)` loop of `FindPythonDir`: return the
name of the first enumerated entry satisfying the directory-attribute
and case-sensitive-prefix test, else fail. -/
def findFirstCpython : List DirEntry → Option (List Char)
  | [] => none
  | e :: rest => if qualifies e then some e.name else findFirstCpython rest

/-- `FindPythonDir` (launcher.c lines 69-92): enumerate
`<baseDir>\.uv-python\cpython-*` (entries of the listing that match the
glob, in listing order) and build `<baseDir>\.uv-python\<name>` for the
first qualifying entry; `INVALID_HANDLE_VALUE` (no glob match) or loop
exhaustion yields `none`. -/
def FindPythonDir (baseDir : List Char) (entries : List DirEntry) : Option (List Char) :=
  (findFirstCpython (entries.filter (fun e => globCpython e.name))).map
    (fun name => baseDir ++ ("\\.uv-python\\").data ++ name)

/-- Newline stripping in `FixPyvenvCfg` (launcher.c lines 107-108):
`wcschr(line, L'\n')` finds the first `\n` and a `\0` is stored there,
truncating the line at that point. -/
def stripNl (s : List Char) : List Char :=
  s.takeWhile (fun c => c != '\n')

/-- The version-key test (launcher.c line 110):
`_wcsnicmp(line, L"version", 7) == 0`, i.e. the first 7 characters of
the line equal `version` up to ASCII case (the C locale `towlower`
lowers only `A`-`Z`, as does `Char.toLower`).  A line shorter than 7
characters cannot match. -/
def versionMatch (s : List Char) : Bool :=
  (s.take 7).map Char.toLower == ("version").data

/-- The read loop of `FixPyvenvCfg` (launcher.c lines 104-115) over the
lines returned by `fgetws`, threading the 256-wide-character `version`
buffer: each matching line overwrites the buffer via
`wcscpy_s(version, 256, line)`, which copies the line when it fits
(length at most 255 plus the terminator) and otherwise leaves an empty
string in the destination and returns an error (the mingw/msvcrt
`wcscpy_s` sets `dest[0] = 0` on `ERANGE` without aborting). -/
def scanVersion : List (List Char) → List Char → List Char
  | [], version => version
  | raw :: rest, version =>
    let s := stripNl raw
    scanVersion rest
      (if versionMatch s then (if s.length ≤ 255 then s else []) else version)

/-- First line written by `FixPyvenvCfg` (launcher.c line 119). -/
def homeLine (pythonDir : List Char) : List Char :=
  ("home = ").data ++ pythonDir

/-- Second line written by `FixPyvenvCfg` (launcher.c line 120). -/
def sitePackagesLine : List Char :=
  ("include-system-site-packages = false").data

/-- `FixPyvenvCfg` (launcher.c lines 95-129).  `cfgFile` is the content
of `<venvDir>\pyvenv.cfg` as the list of lines `fgetws` yields (`none`
when the open for read fails, e.g. the file is absent); `writeOk` is
whether `_wfopen_s(.., L"w")` succeeds.  The result is the C return
value paired with the lines written (`none` when nothing is written):
`home = <pythonDir>`, the fixed flag line, then the captured version
line when the `version[0] != L'\0'` test passes. -/
def FixPyvenvCfg (cfgFile : Option (List (List Char))) (pythonDir : List Char)
    (writeOk : Bool) : Bool × Option (List (List Char)) :=
  let version : List Char :=
    match cfgFile with
    | none => []
    | some lines => scanVersion lines []
  if writeOk then
    (true, some ([homeLine pythonDir, sitePackagesLine] ++
      (if version.isEmpty then [] else [version])))
  else
    (false, none)

/-- Environment lookup as `GetEnvironmentVariableW` sees it: the
variable's value when the name is present. -/
def lookupEnv (env : List (List Char × List Char)) (name : List Char) :
    Option (List Char) :=
  match env.find? (fun p => p.fst == name) with
  | some p => some p.snd
  | none => none

/-- The `oldPath` buffer after `GetEnvironmentVariableW(L"PATH", oldPath,
MAX_ENV_SIZE)` (launcher.c line 145).  The buffer is a stack local that
the source never initializes and the return value is not checked; when
`PATH` is present its value is stored, but when the variable is not
found `GetEnvironmentVariableW` fails without writing to the buffer, so
the prior (indeterminate) stack contents `residual` remain. -/
def getEnvPath (env : List (List Char × List Char)) (residual : List Char) :
    List Char :=
  match lookupEnv env (("PATH").data) with
  | some v => v
  | none => residual

/-- The `wsprintfW(newPath, L"%s\\Scripts;%s;%s\\Scripts;%s", venvDir,
pythonDir, pythonDir, oldPath)` composition (launcher.c lines 146-147).
`wsprintfW` caps its output at 1024 characters even though `newPath` is
`MAX_ENV_SIZE` (32767) wide characters, so the stored string is the
composition truncated to its first 1024 characters. -/
def composedPath (venvDir pythonDir oldPath : List Char) : List Char :=
  (venvDir ++ ("\\Scripts;").data ++ pythonDir ++ (";").data ++
    pythonDir ++ ("\\Scripts;").data ++ oldPath).take 1024

/-- `SetupEnvironment` (launcher.c lines 132-149): the three
`SetEnvironmentVariableW` calls performed, in order — `VIRTUAL_ENV`,
`PLAYWRIGHT_BROWSERS_PATH`, then `PATH` rebuilt from the `oldPath`
buffer. -/
def SetupEnvironment (baseDir venvDir pythonDir : List Char)
    (env : List (List Char × List Char)) (residual : List Char) :
    List (List Char × List Char) :=
  [ (("VIRTUAL_ENV").data, venvDir),
    (("PLAYWRIGHT_BROWSERS_PATH").data, baseDir ++ ("\\.playwright-browsers").data),
    (("PATH").data, composedPath venvDir pythonDir (getEnvPath env residual)) ]

/-- A `MessageBoxW` call: its text and whether it used `MB_ICONERROR`
(`ShowError`) rather than `MB_ICONINFORMATION`. -/
structure Dialog where
  message : List Char
  isError : Bool
deriving DecidableEq

/-- External outcomes `WinMain` depends on. -/
structure World where
  probe : ProbeOutcomes
  baseDir : List Char
  uvPythonEntries : List DirEntry
  venvPythonwExists : Bool
  cfgRead : Option (List (List Char))
  cfgWriteOk : Bool
  env : List (List Char × List Char)
  pathResidual : List Char
  spawnOk : Bool
deriving DecidableEq

/-- Observable result of one launcher run: exit code, dialogs shown,
lines written to `pyvenv.cfg` (`none` when no write happened),
environment variables set (in order), whether `CreateProcessW` was
reached, and on a successful spawn the command line and working
directory. -/
structure RunResult where
  exitCode : Nat
  dialogs : List Dialog
  cfgWritten : Option (List (List Char))
  envSets : List (List Char × List Char)
  spawnAttempted : Bool
  spawnedCmd : Option (List Char × List Char)
deriving DecidableEq

/-- Text of the informational dialog (launcher.c line 174). -/
def alreadyRunningMsg : List Char :=
  ("YakuLingo is already running.").data

/-- Text of the missing-runtime error (launcher.c lines 181-182). -/
def pythonNotFoundMsg : List Char :=
  ("Python not found in .uv-python directory.\n\nPlease reinstall the application.").data

/-- Text of the missing-venv error (launcher.c lines 191-192). -/
def venvNotFoundMsg : List Char :=
  (".venv not found.\n\nPlease reinstall the application.").data

/-- Text of the spawn-failure error (launcher.c lines 227-228). -/
def spawnFailedMsg : List Char :=
  ("Failed to start application.\n\nPlease check your installation.").data

/-- `WinMain` (launcher.c lines 157-237): probe, locate the runtime,
check the venv interpreter, repair `pyvenv.cfg` (return value ignored,
line 197), compose the environment, build the quoted command line and
spawn.  Each early return carries exactly the effects performed up to
that point. -/
def WinMain (w : World) : RunResult :=
  if IsAppRunning w.probe then
    ⟨0, [⟨alreadyRunningMsg, false⟩], none, [], false, none⟩
  else
    match FindPythonDir w.baseDir w.uvPythonEntries with
    | none => ⟨1, [⟨pythonNotFoundMsg, true⟩], none, [], false, none⟩
    | some pythonDir =>
      let venvDir := w.baseDir ++ ("\\.venv").data
      let pythonExe := venvDir ++ ("\\Scripts\\pythonw.exe").data
      if !w.venvPythonwExists then
        ⟨1, [⟨venvNotFoundMsg, true⟩], none, [], false, none⟩
      else
        let repaired := FixPyvenvCfg w.cfgRead pythonDir w.cfgWriteOk
        let sets := SetupEnvironment w.baseDir venvDir pythonDir w.env w.pathResidual
        let cmd := ("\"").data ++ pythonExe ++ ("\" \"").data ++
          (w.baseDir ++ ("\\app.py").data) ++ ("\"").data
        if w.spawnOk then
          ⟨0, [], repaired.snd, sets, true, some (cmd, w.baseDir)⟩
        else
          ⟨1, [⟨spawnFailedMsg, true⟩], repaired.snd, sets, true, none⟩

/-- Specification-side view of the scan: the stripped lines that pass
the version-key test, in file order. -/
def matchedLines (lines : List (List Char)) : List (List Char) :=
  (lines.map stripNl).filter versionMatch

/-- Specification-side view: the last stripped line passing the
version-key test, if any. -/
def lastMatch (lines : List (List Char)) : Option (List Char) :=
  (matchedLines lines).reverse.head?

/-- What `wcscpy_s(version, 256, s)` leaves in the buffer. -/
def clip (s : List Char) : List Char :=
  if s.length ≤ 255 then s else []

lemma head_app_single {α : Type} (l : List α) (a : α) :
    (l ++ [a]).head? = some (l.head?.getD a) := by
  cases l <;> rfl

lemma lastMatch_cons (raw : List Char) (rest : List (List Char)) :
    lastMatch (raw :: rest) =
      if versionMatch (stripNl raw)
      then some ((lastMatch rest).getD (stripNl raw))
      else lastMatch rest := by
  unfold lastMatch matchedLines
  by_cases h : versionMatch (stripNl raw) = true
  · simp only [List.map_cons, List.filter_cons, h, if_true, List.reverse_cons,
      head_app_single]
  · simp only [List.map_cons, List.filter_cons, h, Bool.false_eq_true, if_false]

lemma scanVersion_eq (lines : List (List Char)) (acc : List Char) :
    scanVersion lines acc =
      match lastMatch lines with
      | none => acc
      | some v => clip v := by
  induction lines generalizing acc with
  | nil => rfl
  | cons raw rest ih =>
    rw [scanVersion, ih, lastMatch_cons]
    by_cases h : versionMatch (stripNl raw) = true
    · cases hlm : lastMatch rest with
      | none => simp [h, hlm, clip]
      | some v => simp [h, hlm]
    · simp [h]

lemma scanVersion_len (lines : List (List Char)) (acc : List Char)
    (h : acc.length ≤ 255) : (scanVersion lines acc).length ≤ 255 := by
  induction lines generalizing acc with
  | nil => exact h
  | cons raw rest ih =>
    rw [scanVersion]
    apply ih
    by_cases hm : versionMatch (stripNl raw) = true
    · by_cases hl : (stripNl raw).length ≤ 255 <;> simp [hm, hl]
    · simp [hm, h]

lemma lastMatch_mem {lines : List (List Char)} {v : List Char}
    (h : lastMatch lines = some v) : v ∈ matchedLines lines := by
  unfold lastMatch at h
  have hv : v ∈ (matchedLines lines).reverse := by
    cases hrev : (matchedLines lines).reverse with
    | nil => rw [hrev] at h; simp at h
    | cons a t =>
      rw [hrev] at h
      injection h with h
      subst h
      exact List.mem_cons_self _ _
  exact List.mem_reverse.mp hv

lemma lastMatch_match {lines : List (List Char)} {v : List Char}
    (h : lastMatch lines = some v) : versionMatch v = true :=
  (List.mem_filter.mp (lastMatch_mem h)).2

lemma versionMatch_len {s : List Char} (h : versionMatch s = true) :
    7 ≤ s.length := by
  unfold versionMatch at h
  have he : (s.take 7).map Char.toLower = ("version").data := eq_of_beq h
  have hl := congrArg List.length he
  have h7 : (("version").data).length = 7 := by decide
  rw [h7] at hl
  simp only [List.length_map, List.length_take] at hl
  omega

lemma FixPyvenvCfg_last {lines : List (List Char)} {v : List Char}
    (pythonDir : List Char) (h : lastMatch lines = some v)
    (hlen : v.length ≤ 255) :
    FixPyvenvCfg (some lines) pythonDir true =
      (true, some [homeLine pythonDir, sitePackagesLine, v]) := by
  have hs : scanVersion lines [] = v := by
    rw [scanVersion_eq, h]
    simp [clip, hlen]
  have h7 := versionMatch_len (lastMatch_match h)
  have hne : v.isEmpty = false := by
    cases v with
    | nil => simp at h7
    | cons a t => rfl
  simp [FixPyvenvCfg, hs, hne]

lemma FixPyvenvCfg_noVersion {lines : List (List Char)} (pythonDir : List Char)
    (h : lastMatch lines = none) :
    FixPyvenvCfg (some lines) pythonDir true =
      (true, some [homeLine pythonDir, sitePackagesLine]) := by
  have hs : scanVersion lines [] = [] := by rw [scanVersion_eq, h]
  simp [FixPyvenvCfg, hs]

lemma FixPyvenvCfg_absent (pythonDir : List Char) :
    FixPyvenvCfg none pythonDir true =
      (true, some [homeLine pythonDir, sitePackagesLine]) := by
  simp [FixPyvenvCfg]

lemma findFirst_eq (l : List DirEntry) :
    findFirstCpython l = ((l.filter qualifies).head?).map DirEntry.name := by
  induction l with
  | nil => rfl
  | cons e rest ih =>
    by_cases h : qualifies e = true <;>
      simp [findFirstCpython, List.filter_cons, h, ih]

lemma qual_glob {e : DirEntry} (h : qualifies e = true) :
    globCpython e.name = true := by
  unfold qualifies at h
  simp only [Bool.and_eq_true] at h
  have h3 : e.name.take 8 = ("cpython-").data := eq_of_beq h.2
  unfold globCpython
  rw [h3]
  decide

lemma filter_qual_glob (entries : List DirEntry) :
    (entries.filter (fun e => globCpython e.name)).filter qualifies =
      entries.filter qualifies := by
  induction entries with
  | nil => rfl
  | cons e rest ih =>
    by_cases hq : qualifies e = true
    · have hg := qual_glob hq
      simp [List.filter_cons, hq, hg, ih]
    · by_cases hg : globCpython e.name = true <;>
        simp [List.filter_cons, hq, hg, ih]

/-- C1 (amended): ConfigRepair round-trip.  For every config file whose
version lines fit the 256-wide-character capture buffer (shorter than
256 characters after line-terminator stripping), the rewritten file
contains exactly, in order, the `home = <runtimeDir>` line, the fixed
`include-system-site-packages = false` line, and the captured version
line verbatim; for a config file with no version line, or an absent
config file, the rewritten file contains exactly the two fixed lines
and the operation succeeds. -/
theorem c1_roundtrip_amended (lines : List (List Char)) (pythonDir : List Char) :
    ((∀ v ∈ matchedLines lines, v.length ≤ 255) →
      FixPyvenvCfg (some lines) pythonDir true =
        (true, some ([homeLine pythonDir, sitePackagesLine] ++
          (match lastMatch lines with
           | some v => [v]
           | none => []))))
    ∧ (lastMatch lines = none →
        FixPyvenvCfg (some lines) pythonDir true =
          (true, some [homeLine pythonDir, sitePackagesLine]))
    ∧ FixPyvenvCfg none pythonDir true =
        (true, some [homeLine pythonDir, sitePackagesLine]) := by
  refine ⟨?_, ?_, FixPyvenvCfg_absent pythonDir⟩
  · intro hfit
    cases hl : lastMatch lines with
    | none => simpa using FixPyvenvCfg_noVersion pythonDir hl
    | some v =>
      simpa using FixPyvenvCfg_last pythonDir hl (hfit v (lastMatch_mem hl))
  · intro hl
    exact FixPyvenvCfg_noVersion pythonDir hl

/-- C1 witness: a concrete round trip at a config file holding the line
`version = 3.11.5`. -/
theorem c1_roundtrip_witness :
    FixPyvenvCfg (some [("version = 3.11.5\n").data]) (("R").data) true =
      (true, some [homeLine (("R").data), sitePackagesLine,
        ("version = 3.11.5").data]) := by
  have h := (c1_roundtrip_amended [("version = 3.11.5\n").data] (("R").data)).1
    (by decide)
  rw [h]
  decide

/-- The 256-wide-character line used to refute the unconditional
round-trip: `version` followed by 249 `x` characters. -/
def longVersionLine : List Char :=
  ("version").data ++ List.replicate 249 'x'

/-- C1 counterexample: a config file consisting of one version line of
256 characters.  The line passes the version-key test and is unchanged
by newline stripping, yet the rewritten file consists of the two fixed
lines only — the version line is not re-emitted, refuting the
unconditional round-trip claim. -/
theorem c1_counterexample :
    versionMatch (stripNl longVersionLine) = true ∧
    FixPyvenvCfg (some [longVersionLine]) (("R").data) true =
      (true, some [homeLine (("R").data), sitePackagesLine]) ∧
    longVersionLine ∉ [homeLine (("R").data), sitePackagesLine] := by
  refine ⟨by decide, by decide, by decide⟩

/-- C2 (amended): for every config file with one or more lines whose
key begins (case-insensitive prefix match) with the version key,
FixPyvenvCfg captures the last such line — provided it is shorter than
256 characters after stripping — and re-emits that line verbatim in the
rewritten file. -/
theorem c2_capture_amended (lines : List (List Char)) (pythonDir v : List Char)
    (h : lastMatch lines = some v) (hlen : v.length ≤ 255) :
    scanVersion lines [] = v ∧
    FixPyvenvCfg (some lines) pythonDir true =
      (true, some [homeLine pythonDir, sitePackagesLine, v]) := by
  constructor
  · rw [scanVersion_eq, h]
    simp [clip, hlen]
  · exact FixPyvenvCfg_last pythonDir h hlen

/-- C2 witness: with lines `home = old` and `Version = 3.10.2`, the
case-insensitively matching second line is captured and re-emitted. -/
theorem c2_capture_witness :
    scanVersion [("home = old\n").data, ("Version = 3.10.2\n").data] [] =
      ("Version = 3.10.2").data ∧
    FixPyvenvCfg (some [("home = old\n").data, ("Version = 3.10.2\n").data])
      (("R").data) true =
      (true, some [homeLine (("R").data), sitePackagesLine,
        ("Version = 3.10.2").data]) :=
  c2_capture_amended _ _ _ (by decide) (by decide)

/-- C2 counterexample: with two matching lines `version = 1` and
`Version = 2`, the first matching line passes the version-key test, yet
the scan captures and the rewrite re-emits the second (last) one — the
first line is not preserved, refuting first-line capture. -/
theorem c2_counterexample :
    versionMatch (stripNl (("version = 1\n").data)) = true ∧
    scanVersion [("version = 1\n").data, ("Version = 2\n").data] [] =
      ("Version = 2").data ∧
    ("Version = 2").data ≠ ("version = 1").data ∧
    FixPyvenvCfg (some [("version = 1\n").data, ("Version = 2\n").data])
      (("R").data) true =
      (true, some [homeLine (("R").data), sitePackagesLine,
        ("Version = 2").data]) := by
  refine ⟨by decide, by decide, by decide, by decide⟩

/-- C3 (amended): for every prior search-path value, venv directory and
runtime directory whose composition
`<venvDir>\Scripts;<runtimeDir>;<runtimeDir>\Scripts;<prior>` is at
most 1024 characters long (the `wsprintfW` output cap), SetupEnvironment
sets the search-path variable to exactly that composition; in particular
prior `C:\X`, venv `V`, runtime `R` compose to
`V\Scripts;R;R\Scripts;C:\X` exactly. -/
theorem c3_setup_path (baseDir venvDir pythonDir oldPath residual : List Char)
    (env : List (List Char × List Char))
    (h : lookupEnv env (("PATH").data) = some oldPath)
    (hlen : (venvDir ++ ("\\Scripts;").data ++ pythonDir ++ (";").data ++
      pythonDir ++ ("\\Scripts;").data ++ oldPath).length ≤ 1024) :
    SetupEnvironment baseDir venvDir pythonDir env residual =
      [ (("VIRTUAL_ENV").data, venvDir),
        (("PLAYWRIGHT_BROWSERS_PATH").data,
          baseDir ++ ("\\.playwright-browsers").data),
        (("PATH").data,
          venvDir ++ ("\\Scripts;").data ++ pythonDir ++ (";").data ++
            pythonDir ++ ("\\Scripts;").data ++ oldPath) ] ∧
    composedPath (("V").data) (("R").data) (("C:\\X").data) =
      ("V\\Scripts;R;R\\Scripts;C:\\X").data := by
  constructor
  · have hc : composedPath venvDir pythonDir oldPath =
        venvDir ++ ("\\Scripts;").data ++ pythonDir ++ (";").data ++
          pythonDir ++ ("\\Scripts;").data ++ oldPath := by
      unfold composedPath
      exact List.take_of_length_le hlen
    simp [SetupEnvironment, getEnvPath, h, hc]
  · decide

/-- C3 witness: the concrete composition with prior search path `C:\X`,
venv directory `V`, runtime directory `R`. -/
theorem c3_setup_path_witness :
    SetupEnvironment (("B").data) (("V").data) (("R").data)
      [((("PATH").data), (("C:\\X").data))] [] =
      [ (("VIRTUAL_ENV").data, ("V").data),
        (("PLAYWRIGHT_BROWSERS_PATH").data, ("B\\.playwright-browsers").data),
        (("PATH").data, ("V\\Scripts;R;R\\Scripts;C:\\X").data) ] := by
  have h := (c3_setup_path (("B").data) (("V").data) (("R").data)
    (("C:\\X").data) [] [((("PATH").data), (("C:\\X").data))]
    (by decide) (by decide)).1
  rw [h]
  decide

/-- The 1024-character prior search-path value used to refute the
unconditional exact-composition claim. -/
def longPathValue : List Char :=
  List.replicate 1024 'p'

/-- The uncapped composition at the counterexample input: venv `V`,
runtime `R`, prior search path `longPathValue` (1046 characters in
total). -/
def longComposed : List Char :=
  ("V").data ++ ("\\Scripts;").data ++ ("R").data ++ (";").data ++
    ("R").data ++ ("\\Scripts;").data ++ longPathValue

/-- C3 counterexample: with a 1024-character prior search-path value,
SetupEnvironment stores only the first 1024 characters of the
1046-character composition `V\Scripts;R;R\Scripts;<prior>` — the
`wsprintfW` output cap — so the variable is not set to the exact
composition. -/
theorem c3_counterexample :
    SetupEnvironment (("B").data) (("V").data) (("R").data)
      [((("PATH").data), longPathValue)] [] =
      [ (("VIRTUAL_ENV").data, ("V").data),
        (("PLAYWRIGHT_BROWSERS_PATH").data, ("B\\.playwright-browsers").data),
        (("PATH").data, longComposed.take 1024) ] ∧
    longComposed.take 1024 ≠ longComposed := by
  constructor
  · rfl
  · intro hv
    have hL : longComposed.length = 1046 := by decide
    have hlen := congrArg List.length hv
    rw [List.length_take, hL] at hlen
    omega

/-- C4: the liveness probe reports the application running iff session
open, connect, request open, send and receive all succeed; a failure at
any stage yields `false`, and the probe is a single attempt. -/
theorem c4_probe_iff (o : ProbeOutcomes) :
    IsAppRunning o = true ↔
      (o.sessionOk = true ∧ o.connectOk = true ∧ o.openRequestOk = true ∧
        o.sendOk = true ∧ o.receiveOk = true) := by
  obtain ⟨a, b, c, d, e⟩ := o
  cases a <;> cases b <;> cases c <;> cases d <;> cases e <;>
    simp [IsAppRunning]

/-- C5: with exactly one directory entry whose name begins with the
case-sensitive prefix `cpython-`, FindPythonDir returns that entry's
full path; with zero such entries it returns not-found. -/
theorem c5_find_runtime (baseDir : List Char) (entries : List DirEntry)
    (e : DirEntry) :
    (entries.filter qualifies = [e] →
      FindPythonDir baseDir entries =
        some (baseDir ++ ("\\.uv-python\\").data ++ e.name)) ∧
    (entries.filter qualifies = [] →
      FindPythonDir baseDir entries = none) := by
  constructor <;> intro h
  · unfold FindPythonDir
    rw [findFirst_eq, filter_qual_glob, h]
    rfl
  · unfold FindPythonDir
    rw [findFirst_eq, filter_qual_glob, h]
    rfl

/-- C5 witness: a listing with one qualifying directory yields its full
path; a listing whose only entry differs in case yields not-found. -/
theorem c5_find_runtime_witness :
    FindPythonDir (("C:\\App").data)
      [⟨("cpython-3.11.5").data, true⟩, ⟨("python").data, false⟩] =
      some (("C:\\App\\.uv-python\\cpython-3.11.5").data) ∧
    FindPythonDir (("C:\\App").data) [⟨("CPython-3.11.5").data, true⟩] =
      none := by
  constructor
  · have h := (c5_find_runtime (("C:\\App").data)
      [⟨("cpython-3.11.5").data, true⟩, ⟨("python").data, false⟩]
      ⟨("cpython-3.11.5").data, true⟩).1 (by decide)
    rw [h]
    decide
  · exact (c5_find_runtime (("C:\\App").data)
      [⟨("CPython-3.11.5").data, true⟩] ⟨[], false⟩).2 (by decide)

/-- C6: when the probe reports the application already running, the run
shows exactly one informational (non-error) dialog, exits with code 0,
writes nothing to the filesystem, sets no environment variable and
spawns nothing. -/
theorem c6_already_running (w : World) (h : IsAppRunning w.probe = true) :
    WinMain w = ⟨0, [⟨alreadyRunningMsg, false⟩], none, [], false, none⟩ := by
  simp [WinMain, h]

/-- C6 witness: a concrete world whose probe succeeds at every stage. -/
theorem c6_already_running_witness :
    WinMain ⟨⟨true, true, true, true, true⟩, ("C:\\App").data,
      [⟨("cpython-3.11.5").data, true⟩], true, none, true, [], [], true⟩ =
      ⟨0, [⟨alreadyRunningMsg, false⟩], none, [], false, none⟩ :=
  c6_already_running _ (by decide)

/-- C7: once the probe fails, the runtime is found and the venv check
passes, the run always reaches environment composition and the spawn
attempt — for every config-repair outcome (`cfgRead` and `cfgWriteOk`
are arbitrary in `w`), FixPyvenvCfg's result never blocks the launch. -/
theorem c7_repair_nonfatal (w : World) (d : List Char)
    (h1 : IsAppRunning w.probe = false)
    (h2 : FindPythonDir w.baseDir w.uvPythonEntries = some d)
    (h3 : w.venvPythonwExists = true) :
    (WinMain w).spawnAttempted = true ∧
    (WinMain w).envSets =
      SetupEnvironment w.baseDir (w.baseDir ++ ("\\.venv").data) d
        w.env w.pathResidual := by
  cases hs : w.spawnOk <;> simp [WinMain, h1, h2, h3, hs]

/-- C7 witness: a concrete world in which the write open for the config
file fails (`cfgWriteOk = false`), yet the spawn is attempted and the
environment is composed. -/
theorem c7_repair_nonfatal_witness :
    (WinMain ⟨⟨false, false, false, false, false⟩, ("C:\\App").data,
      [⟨("cpython-3.11.5").data, true⟩], true, none, false, [], [],
      true⟩).spawnAttempted = true ∧
    (WinMain ⟨⟨false, false, false, false, false⟩, ("C:\\App").data,
      [⟨("cpython-3.11.5").data, true⟩], true, none, false, [], [],
      true⟩).envSets =
      SetupEnvironment (("C:\\App").data)
        (("C:\\App").data ++ ("\\.venv").data)
        (("C:\\App\\.uv-python\\cpython-3.11.5").data) [] [] :=
  c7_repair_nonfatal _ _ (by decide) (by decide) (by decide)

/-- C8 (code-bug exhibit): the source never initializes the `oldPath`
buffer and ignores the return value of `GetEnvironmentVariableW`, which
does not write to the buffer when the variable is not found; so with
`PATH` absent and residual buffer contents `G`, the composed search
path ends in `G`, not in the empty string claimed by the contract. -/
theorem c8_unset_path_residual :
    SetupEnvironment (("B").data) (("V").data) (("R").data) [] (("G").data) =
      [ (("VIRTUAL_ENV").data, ("V").data),
        (("PLAYWRIGHT_BROWSERS_PATH").data, ("B\\.playwright-browsers").data),
        (("PATH").data, ("V\\Scripts;R;R\\Scripts;G").data) ] ∧
    ("V\\Scripts;R;R\\Scripts;G").data ≠ ("V\\Scripts;R;R\\Scripts;").data := by
  refine ⟨by decide, by decide⟩

/-- C9: the verbatim-preservation guarantee is bounded by the
256-wide-character capture buffer: the captured (last-matching) version
line is preserved verbatim when shorter than 256 characters after
stripping, while a matching line of 256 or more characters can never be
the captured value. -/
theorem c9_capture_bound (lines : List (List Char)) (v pythonDir : List Char) :
    (lastMatch lines = some v → v.length < 256 →
      scanVersion lines [] = v ∧
      FixPyvenvCfg (some lines) pythonDir true =
        (true, some [homeLine pythonDir, sitePackagesLine, v])) ∧
    (v ∈ matchedLines lines → 256 ≤ v.length → scanVersion lines [] ≠ v) := by
  constructor
  · intro h hlen
    have hlen' : v.length ≤ 255 := by omega
    constructor
    · rw [scanVersion_eq, h]
      simp [clip, hlen']
    · exact FixPyvenvCfg_last pythonDir h hlen'
  · intro _ hlen heq
    have hb := scanVersion_len lines [] (by simp)
    rw [heq] at hb
    omega

/-- C9 witness: a short version line is captured and re-emitted
verbatim, and the 256-character `longVersionLine` is never the captured
value. -/
theorem c9_capture_bound_witness :
    (scanVersion [("version = 3.9.7\n").data] [] = ("version = 3.9.7").data ∧
      FixPyvenvCfg (some [("version = 3.9.7\n").data]) (("P").data) true =
        (true, some [homeLine (("P").data), sitePackagesLine,
          ("version = 3.9.7").data])) ∧
    scanVersion [longVersionLine] [] ≠ longVersionLine := by
  constructor
  · exact (c9_capture_bound [("version = 3.9.7\n").data]
      (("version = 3.9.7").data) (("P").data)).1 (by decide) (by decide)
  · exact (c9_capture_bound [longVersionLine] longVersionLine
      (("P").data)).2 (by decide) (by decide)

/-- C10: on every run ending before environment composition — probe
reports running, runtime not found, or venv interpreter missing — no
environment variable is set. -/
theorem c10_no_env_before_venv_check (w : World)
    (h : IsAppRunning w.probe = true ∨
      FindPythonDir w.baseDir w.uvPythonEntries = none ∨
      w.venvPythonwExists = false) :
    (WinMain w).envSets = [] := by
  rcases h with h | h | h
  · simp [WinMain, h]
  · cases hp : IsAppRunning w.probe <;> simp [WinMain, hp, h]
  · cases hp : IsAppRunning w.probe
    · cases hf : FindPythonDir w.baseDir w.uvPythonEntries with
      | none => simp [WinMain, hp, hf]
      | some d => simp [WinMain, hp, hf, h]
    · simp [WinMain, hp]

/-- C10 witness: a concrete world with an empty runtime cache (runtime
not found) sets no environment variable. -/
theorem c10_no_env_witness :
    (WinMain ⟨⟨false, false, false, false, false⟩, ("C:\\App").data, [], true,
      none, true, [], [], true⟩).envSets = [] :=
  c10_no_env_before_venv_check _ (Or.inr (Or.inl (by decide)))
